import Mathlib

/-!
Verification development for the buildings Query & Pagination Engine.

The definitions below are a shallow embedding of the TypeScript sources:
the paginated buildings service (BuildingsService.findAllPaginated and its
helpers executeCountQuery, executePaginatedDataQuery, applyFilterConditions,
calculatePaginationMeta, validateWktPolygon), the WKT polygon validator
(ValidationErrorHandler.validateWktPolygon), the pagination Zod schema
(QueryBuildingsPaginatedSchema), the controller helpers
(calculatePaginationMeta, sanitizeQueryForLogging), and the polygon services
(findByPolygon, countTotalByPolygon) as far as their log events are concerned.

The SqlQueryBuilder class and the PostgreSQL/PostGIS store are not part of
the repository sources; they are modelled from the specification (see the
doc comments on SqlQueryBuilder and on the query evaluation semantics).
-/

/-! ## Character and string utilities (kernel-reducible replacements for the
JavaScript string operations used by the sources) -/

/-- JavaScript String.prototype.trim on a character list: drop whitespace from
both ends. -/
def trimChars (l : List Char) : List Char :=
  ((l.dropWhile Char.isWhitespace).reverse.dropWhile Char.isWhitespace).reverse

/-- JavaScript String.prototype.split(sep) for a single-character separator:
splits at every occurrence, keeping empty segments (like the source's
coordsStr.split(',')). -/
def splitOnChar (sep : Char) : List Char → List (List Char)
  | [] => [[]]
  | c :: rest =>
    let r := splitOnChar sep rest
    if c = sep then [] :: r
    else
      match r with
      | [] => [[c]]
      | g :: gs => (c :: g) :: gs

/-- Helper for splitWsTrimmed: maximal runs of non-whitespace characters,
accumulating the current (reversed) run. -/
def wsGroupsAux (cur : List Char) : List Char → List (List Char)
  | [] => if cur.isEmpty then [] else [cur.reverse]
  | c :: rest =>
    if c.isWhitespace then
      if cur.isEmpty then wsGroupsAux [] rest
      else cur.reverse :: wsGroupsAux [] rest
    else wsGroupsAux (c :: cur) rest

/-- JavaScript String.prototype.split on the whitespace-run regex, applied to
an already-trimmed string: the empty string yields one empty segment, any
other trimmed string yields its maximal non-whitespace runs. -/
def splitWsTrimmed (l : List Char) : List (List Char) :=
  if l.isEmpty then [[]] else wsGroupsAux [] l

/-- Decimal digit character for d in 0..9. -/
def digitChar (d : Nat) : Char := Char.ofNat (48 + d)

/-- Fuel-driven decimal rendering of a natural number (fuel bounds the digit
count, so natToStr below always has enough). -/
def natToStrAux : Nat → Nat → List Char
  | 0, _ => []
  | fuel + 1, n =>
    if n < 10 then [digitChar n]
    else natToStrAux fuel (n / 10) ++ [digitChar (n % 10)]

/-- Decimal rendering of a natural number, mirroring JavaScript template
interpolation of a non-negative integer. -/
def natToStr (n : Nat) : String := String.mk (natToStrAux (n + 1) n)

/-- Does the needle occur as a contiguous substring of the haystack?  Used to
state that an error message mentions a given phrase. -/
def strContains (hay needle : String) : Bool :=
  (List.range (hay.data.length + 1)).any
    (fun i => ((hay.data.drop i).take needle.data.length) == needle.data)

/-- All suffixes of a character list, longest first (including the list itself
and the empty list). -/
def sufs : List Char → List (List Char)
  | [] => [[]]
  | c :: rest => (c :: rest) :: sufs rest

/-- SQL LIKE pattern matching on character lists: percent matches any run of
characters, underscore matches exactly one character, anything else matches
itself.  This is the semantics the store collaborator gives to the ILIKE
fragments the service compiles (after lowercasing both sides). -/
def likeMatch : List Char → List Char → Bool
  | [], s => s.isEmpty
  | c :: p, s =>
    if c = '%' then (sufs s).any (fun t => likeMatch p t)
    else
      match s with
      | [] => false
      | c2 :: s2 => (c = '_' || c == c2) && likeMatch p s2

/-- A character list free of the LIKE wildcard markers. -/
abbrev noWildcards (l : List Char) : Prop := ∀ c ∈ l, c ≠ '%' ∧ c ≠ '_'


/-! ## Data model

Mirrors the TypeScript interfaces: BuildingsPaginatedQuery (the filter
request after DTO validation), the rows of public.buildings, BuildingData
(the transformed row), PaginationMeta and BuildingsPaginatedResponse. -/

/-- Stored point geometry.  The concrete coordinate representation is opaque
to the engine (PostGIS owns it); two integer coordinates suffice for the
claims, which never compute with coordinates. -/
structure GeoPoint where
  x : Int
  y : Int
deriving DecidableEq, Repr

/-- BuildingsPaginatedQuery: the paginated filter request.  All filter fields
are optional strings; limit and offset have already been normalized by the
DTO layer (limit in 1..100 defaulting to 20, offset at least 0 defaulting
to 0), hence natural numbers. -/
structure BuildingsPaginatedQuery where
  cadastral_code : Option String := none
  municipality_code : Option String := none
  building_type : Option String := none
  name : Option String := none
  address : Option String := none
  polygon : Option String := none
  limit : Nat := 20
  offset : Nat := 0
deriving DecidableEq, Repr

/-- One stored row of public.buildings.  Nullable columns are Options;
created_at is an abstract timestamp ordered as a natural number. -/
structure BuildingRow where
  id : String
  cadastral_code : String
  municipality_code : String
  name : Option String := none
  building_type : String
  address : String
  geom : Option GeoPoint := none
  basic_data : String := ""
  visible : Bool
  created_at : Nat
  updated_at : Option Nat := none
  updated_by : Option String := none
deriving DecidableEq, Repr

/-- BuildingData: one row as returned by the service.  The geometry column is
selected as ST_AsGeoJSON(geom) and parsed back with JSON.parse only when
non-null, so it round-trips to the stored point; a null stored geometry
yields an absent field (undefined), never a parse attempt. -/
structure BuildingData where
  id : String
  cadastral_code : String
  municipality_code : String
  name : Option String
  building_type : String
  address : String
  geometry : Option GeoPoint
  basic_data : String
  visible : Bool
  created_at : Nat
  updated_at : Option Nat
  updated_by : Option String
deriving DecidableEq, Repr

/-- PaginationMeta as produced by calculatePaginationMeta. -/
structure PaginationMeta where
  total : Nat
  limit : Nat
  offset : Nat
  hasNext : Bool
  hasPrevious : Bool
deriving DecidableEq, Repr

/-- BuildingsPaginatedResponse: data page plus pagination metadata. -/
structure BuildingsPaginatedResponse where
  data : List BuildingData
  meta : PaginationMeta
deriving DecidableEq, Repr

/-- JavaScript truthiness of an optional string: absent and empty string are
both falsy.  Every filter guard in the service is written
if (query.field) and therefore follows this test. -/
def strTruthy : Option String → Bool
  | none => false
  | some s => !(s == "")

/-! ## SqlQueryBuilder

Modelled from the spec: the SqlQueryBuilder utility class is imported by the
services from common/utils but its implementation is not among the sources.
Per the specification it is a builder that appends (fragment, params) pairs
to an ordered list and renders final positional placeholders in one pass at
build time, so the same fragment list is reusable for the count and data
queries.  The model keeps the fragments exactly as the call sites pass them
(each with a $1 placeholder, renumbered only at render time, which no claim
depends on). -/

/-- A positional SQL parameter value. -/
inductive SqlParam where
  | pbool (b : Bool)
  | pstr (s : String)
deriving DecidableEq, Repr

/-- Modelled from the spec: builder state for SELECT queries, an ordered
fragment list plus select columns, source table, ordering and window. -/
structure SqlQueryBuilder where
  selectCols : List String := []
  fromTbl : String := ""
  whereClauses : List (String × List SqlParam) := []
  orderByCl : Option (String × String) := none
  limitCl : Option Nat := none
  offsetCl : Option Nat := none
deriving DecidableEq, Repr

/-- Modelled from the spec: SqlQueryBuilder.create(). -/
def SqlQueryBuilder.create : SqlQueryBuilder := {}

/-- Modelled from the spec: .select(columns). -/
def SqlQueryBuilder.select (b : SqlQueryBuilder) (cols : List String) : SqlQueryBuilder :=
  { b with selectCols := cols }

/-- Modelled from the spec: .from(table). -/
def SqlQueryBuilder.fromTable (b : SqlQueryBuilder) (t : String) : SqlQueryBuilder :=
  { b with fromTbl := t }

/-- Modelled from the spec: .where(fragment, params), the initial predicate. -/
def SqlQueryBuilder.whereCl (b : SqlQueryBuilder) (frag : String) (ps : List SqlParam) :
    SqlQueryBuilder :=
  { b with whereClauses := b.whereClauses ++ [(frag, ps)] }

/-- Modelled from the spec: .andWhere(fragment, params) appends one more
AND-combined predicate fragment; it never removes or rewrites fragments. -/
def SqlQueryBuilder.andWhere (b : SqlQueryBuilder) (frag : String) (ps : List SqlParam) :
    SqlQueryBuilder :=
  { b with whereClauses := b.whereClauses ++ [(frag, ps)] }

/-- Modelled from the spec: .orderBy(column, direction). -/
def SqlQueryBuilder.orderBy (b : SqlQueryBuilder) (col dir : String) : SqlQueryBuilder :=
  { b with orderByCl := some (col, dir) }

/-- Modelled from the spec: .limit(n). -/
def SqlQueryBuilder.limit (b : SqlQueryBuilder) (n : Nat) : SqlQueryBuilder :=
  { b with limitCl := some n }

/-- Modelled from the spec: .offset(n). -/
def SqlQueryBuilder.offset (b : SqlQueryBuilder) (n : Nat) : SqlQueryBuilder :=
  { b with offsetCl := some n }

/-! ## The filter compiler (BuildingsService.applyFilterConditions) -/

/-- applyFilterConditions from the paginated BuildingsService: appends the
text filters, then the spatial filter, to whatever builder it receives, each
guarded by JavaScript truthiness of the corresponding query field. -/
def applyFilterConditions (b0 : SqlQueryBuilder) (q : BuildingsPaginatedQuery) :
    SqlQueryBuilder :=
  let b1 := if strTruthy q.cadastral_code then
      b0.andWhere "cadastral_code = $1" [SqlParam.pstr (q.cadastral_code.getD "")]
    else b0
  let b2 := if strTruthy q.municipality_code then
      b1.andWhere "municipality_code = $1" [SqlParam.pstr (q.municipality_code.getD "")]
    else b1
  let b3 := if strTruthy q.building_type then
      b2.andWhere "building_type = $1" [SqlParam.pstr (q.building_type.getD "")]
    else b2
  let b4 := if strTruthy q.name then
      b3.andWhere "name ILIKE $1" [SqlParam.pstr ("%" ++ q.name.getD "" ++ "%")]
    else b3
  let b5 := if strTruthy q.address then
      b4.andWhere "address ILIKE $1" [SqlParam.pstr ("%" ++ q.address.getD "" ++ "%")]
    else b4
  if strTruthy q.polygon then
    b5.andWhere "ST_Intersects(geom, ST_GeomFromText($1, 4326))"
      [SqlParam.pstr (q.polygon.getD "")]
  else b5

/-- The clause list applyFilterConditions appends, on its own. -/
def filterClauses (q : BuildingsPaginatedQuery) : List (String × List SqlParam) :=
  (if strTruthy q.cadastral_code then
    [("cadastral_code = $1", [SqlParam.pstr (q.cadastral_code.getD "")])] else []) ++
  (if strTruthy q.municipality_code then
    [("municipality_code = $1", [SqlParam.pstr (q.municipality_code.getD "")])] else []) ++
  (if strTruthy q.building_type then
    [("building_type = $1", [SqlParam.pstr (q.building_type.getD "")])] else []) ++
  (if strTruthy q.name then
    [("name ILIKE $1", [SqlParam.pstr ("%" ++ q.name.getD "" ++ "%")])] else []) ++
  (if strTruthy q.address then
    [("address ILIKE $1", [SqlParam.pstr ("%" ++ q.address.getD "" ++ "%")])] else []) ++
  (if strTruthy q.polygon then
    [("ST_Intersects(geom, ST_GeomFromText($1, 4326))",
      [SqlParam.pstr (q.polygon.getD "")])] else [])

/-- The shared SELECT column list of the data queries. -/
def dataSelectCols : List String :=
  ["id", "cadastral_code", "municipality_code", "name", "building_type", "address",
   "ST_AsGeoJSON(geom) as geometry", "basic_data", "visible", "created_at",
   "updated_at", "updated_by"]

/-- The builder executeCountQuery assembles: COUNT(*) over public.buildings,
the mandatory visibility predicate first, then the shared filters; no
ordering, no limit, no offset. -/
def countQueryBuilder (q : BuildingsPaginatedQuery) : SqlQueryBuilder :=
  applyFilterConditions
    (((SqlQueryBuilder.create.select ["COUNT(*) as total"]).fromTable
      "public.buildings").whereCl "visible = $1" [SqlParam.pbool true]) q

/-- The builder executePaginatedDataQuery assembles: the row columns over
public.buildings, the mandatory visibility predicate first, the shared
filters, then ORDER BY created_at DESC, LIMIT and OFFSET. -/
def dataQueryBuilder (q : BuildingsPaginatedQuery) : SqlQueryBuilder :=
  (((applyFilterConditions
    (((SqlQueryBuilder.create.select dataSelectCols).fromTable
      "public.buildings").whereCl "visible = $1" [SqlParam.pbool true]) q).orderBy
      "created_at" "DESC").limit q.limit).offset q.offset

/-! ## Store semantics

Modelled from the spec: the underlying store executes parameterized
count/data queries over the buildings table.  Evaluation interprets exactly
the predicate fragments the service compiles, with SQL three-valued logic
collapsed to Bool at the WHERE clause as usual: a NULL comparison or a NULL
ILIKE or an ST_Intersects against a NULL geometry is not TRUE, so the row is
filtered out.  Spatial intersection itself is PostGIS territory and stays an
oracle parameter itx. -/

/-- ILIKE: case-insensitive LIKE, lowering pattern and subject. -/
def ilike (subject pat : String) : Bool :=
  likeMatch (pat.data.map Char.toLower) (subject.data.map Char.toLower)

/-- ILIKE applied to a nullable column: NULL ILIKE anything is not TRUE. -/
def optIlike (subject : Option String) (pat : String) : Bool :=
  match subject with
  | none => false
  | some s => ilike s pat

/-- Evaluation of one compiled predicate fragment against a stored row.
Only the fragments the service emits are given meaning; itx is the PostGIS
intersection oracle.  A NULL stored geometry never satisfies the spatial
predicate (SQL NULL propagation). -/
def evalClause (itx : GeoPoint → String → Bool) (r : BuildingRow) :
    String × List SqlParam → Bool
  | ("visible = $1", [SqlParam.pbool b]) => r.visible == b
  | ("cadastral_code = $1", [SqlParam.pstr s]) => r.cadastral_code == s
  | ("municipality_code = $1", [SqlParam.pstr s]) => r.municipality_code == s
  | ("building_type = $1", [SqlParam.pstr s]) => r.building_type == s
  | ("name ILIKE $1", [SqlParam.pstr p]) => optIlike r.name p
  | ("address ILIKE $1", [SqlParam.pstr p]) => ilike r.address p
  | ("ST_Intersects(geom, ST_GeomFromText($1, 4326))", [SqlParam.pstr poly]) =>
    match r.geom with
    | none => false
    | some g => itx g poly
  | _ => false

/-- A row satisfies a WHERE clause list when every AND-combined fragment
evaluates to TRUE. -/
def rowMatches (itx : GeoPoint → String → Bool) (r : BuildingRow)
    (clauses : List (String × List SqlParam)) : Bool :=
  clauses.all (evalClause itx r)

/-- The rows of the table satisfying all clauses, in table order. -/
def filterRows (itx : GeoPoint → String → Bool) (db : List BuildingRow)
    (clauses : List (String × List SqlParam)) : List BuildingRow :=
  db.filter (fun r => rowMatches itx r clauses)

/-- Insert one row into a list sorted by created_at descending. -/
def insertByCreatedDesc (r : BuildingRow) : List BuildingRow → List BuildingRow
  | [] => [r]
  | x :: xs =>
    if x.created_at ≤ r.created_at then r :: x :: xs
    else x :: insertByCreatedDesc r xs

/-- ORDER BY created_at DESC (insertion sort; the claims only use that
sorting permutes, so the tie-breaking strategy is immaterial). -/
def sortByCreatedDesc : List BuildingRow → List BuildingRow
  | [] => []
  | x :: xs => insertByCreatedDesc x (sortByCreatedDesc xs)

/-- Modelled from the spec: execution of a built query against the store —
filter by the WHERE clauses, apply ORDER BY created_at DESC when requested,
then OFFSET and LIMIT. -/
def runBuilder (itx : GeoPoint → String → Bool) (db : List BuildingRow)
    (b : SqlQueryBuilder) : List BuildingRow :=
  let rows := filterRows itx db b.whereClauses
  let rows :=
    match b.orderByCl with
    | some ("created_at", "DESC") => sortByCreatedDesc rows
    | _ => rows
  let rows := rows.drop (b.offsetCl.getD 0)
  match b.limitCl with
  | some n => rows.take n
  | none => rows

/-- executeCountQuery: COUNT(*) under the shared clause list. -/
def executeCountQuery (itx : GeoPoint → String → Bool) (db : List BuildingRow)
    (q : BuildingsPaginatedQuery) : Nat :=
  (runBuilder itx db (countQueryBuilder q)).length

/-- Row transformation applied by executePaginatedDataQuery: ST_AsGeoJSON of
a non-null geometry is parsed back to the point, a NULL geometry becomes an
absent field without any parse. -/
def mapRow (r : BuildingRow) : BuildingData :=
  { id := r.id
    cadastral_code := r.cadastral_code
    municipality_code := r.municipality_code
    name := r.name
    building_type := r.building_type
    address := r.address
    geometry := r.geom
    basic_data := r.basic_data
    visible := r.visible
    created_at := r.created_at
    updated_at := r.updated_at
    updated_by := r.updated_by }

/-- executePaginatedDataQuery: the data page under the shared clause list,
ordered and windowed, transformed row by row. -/
def executePaginatedDataQuery (itx : GeoPoint → String → Bool) (db : List BuildingRow)
    (q : BuildingsPaginatedQuery) : List BuildingData :=
  (runBuilder itx db (dataQueryBuilder q)).map mapRow

/-- calculatePaginationMeta from the paginated BuildingsService: hasNext and
hasPrevious are pure functions of total, limit and offset. -/
def calculatePaginationMeta (total limit offset : Nat) : PaginationMeta :=
  { total := total
    limit := limit
    offset := offset
    hasNext := decide (offset + limit < total)
    hasPrevious := decide (0 < offset) }

/-- calculatePaginationMeta from the aggregating controller: identical
formulas after defaulting absent limit/offset to 20/0. -/
def controllerCalculatePaginationMeta (limitOpt offsetOpt : Option Nat)
    (totalCount : Nat) : PaginationMeta :=
  let limit := limitOpt.getD 20
  let offset := offsetOpt.getD 0
  { total := totalCount
    limit := limit
    offset := offset
    hasNext := decide (offset + limit < totalCount)
    hasPrevious := decide (0 < offset) }

/-! ## findAllPaginated -/

/-- Which store queries a findAllPaginated call issues, in order. -/
inductive DbPhase where
  | validationQ
  | countQ
  | dataQ
deriving DecidableEq, Repr

/-- One structured log event, projected to what the claims need: the event
message and the value carried by any polygon-bearing field of the payload
(none when the payload has no polygon field or the field is undefined). -/
structure LogEvent where
  message : String
  payloadPolygon : Option String
deriving DecidableEq, Repr

/-- Outcome of one findAllPaginated call: the returned value or thrown error
message, the store queries issued, and the log events emitted. -/
structure PaginatedOutcome where
  result : Except String BuildingsPaginatedResponse
  phases : List DbPhase
  logs : List LogEvent
deriving Repr

/-- The generic message thrown by the service-level WKT validation (both on
a false is_valid result and on a database error). -/
def genericWktMessage : String :=
  "Invalid WKT polygon format. Please provide a valid WKT POLYGON string."

/-- BuildingsService.findAllPaginated: trace the raw query, validate a truthy
polygon through PostGIS (pgValid is the store's ST_GeomFromText verdict;
failure raises the generic message after logging the raw polygon), then run
the count query, the data query, and assemble metadata from the count.
The log list models the polygon-relevant payload of each emitted event:
trace events serialize the raw query object (and validateWktPolygon its raw
wktPolygon argument), while the final debug event only carries counts and
boolean filter flags. -/
def findAllPaginatedRun (itx : GeoPoint → String → Bool) (pgValid : String → Bool)
    (db : List BuildingRow) (q : BuildingsPaginatedQuery) : PaginatedOutcome :=
  let traceEntry : LogEvent := ⟨"findAllPaginated()", q.polygon⟩
  if strTruthy q.polygon then
    let p := q.polygon.getD ""
    if pgValid p then
      let total := executeCountQuery itx db q
      let data := executePaginatedDataQuery itx db q
      { result := Except.ok ⟨data, calculatePaginationMeta total q.limit q.offset⟩
        phases := [DbPhase.validationQ, DbPhase.countQ, DbPhase.dataQ]
        logs := [traceEntry, ⟨"validateWktPolygon()", some p⟩,
                 ⟨"executeCountQuery()", q.polygon⟩, ⟨"applyFilterConditions()", q.polygon⟩,
                 ⟨"executePaginatedDataQuery()", q.polygon⟩,
                 ⟨"applyFilterConditions()", q.polygon⟩,
                 ⟨"paginated buildings retrieved", none⟩] }
    else
      { result := Except.error genericWktMessage
        phases := [DbPhase.validationQ]
        logs := [traceEntry, ⟨"validateWktPolygon()", some p⟩,
                 ⟨"WKT polygon validation failed", some p⟩,
                 ⟨"failed to retrieve paginated buildings", none⟩] }
  else
    let total := executeCountQuery itx db q
    let data := executePaginatedDataQuery itx db q
    { result := Except.ok ⟨data, calculatePaginationMeta total q.limit q.offset⟩
      phases := [DbPhase.countQ, DbPhase.dataQ]
      logs := [traceEntry,
               ⟨"executeCountQuery()", q.polygon⟩, ⟨"applyFilterConditions()", q.polygon⟩,
               ⟨"executePaginatedDataQuery()", q.polygon⟩,
               ⟨"applyFilterConditions()", q.polygon⟩,
               ⟨"paginated buildings retrieved", none⟩] }

/-- The value findAllPaginated returns (or the error it throws). -/
def findAllPaginated (itx : GeoPoint → String → Bool) (pgValid : String → Bool)
    (db : List BuildingRow) (q : BuildingsPaginatedQuery) :
    Except String BuildingsPaginatedResponse :=
  (findAllPaginatedRun itx pgValid db q).result

/-! ## ValidationErrorHandler.validateWktPolygon -/

/-- One formatted validation error detail (field, message, code, received),
as produced by ValidationErrorHandler. -/
structure VErrDetail where
  field : String
  message : String
  code : String
  received : String
deriving DecidableEq, Repr

/-- Result shape of ValidationErrorHandler.validateWktPolygon. -/
structure WktValidation where
  isValid : Bool
  errors : List VErrDetail
deriving DecidableEq, Repr

/-- Case-insensitive match of a literal prefix, returning the remainder. -/
def dropLitCI : List Char → List Char → Option (List Char)
  | [], l => some l
  | _ :: _, [] => none
  | p :: ps, c :: cs => if c.toLower = p.toLower then dropLitCI ps cs else none

/-- The anchored case-insensitive shell pattern POLYGON ws ( ws ( inner ) ws )
with inner a non-empty run of characters other than a closing parenthesis;
returns inner.  This is the WKT_POLYGON_REGEX test and the coordsMatch
extraction of the handler in one step (after a successful anchored test the
unanchored extraction always yields the same group, so the handler's
unreachable INVALID_WKT_COORDINATES branch has no counterpart here). -/
def wktShell (l : List Char) : Option (List Char) :=
  match dropLitCI "POLYGON".data l with
  | none => none
  | some r1 =>
    match r1.dropWhile Char.isWhitespace with
    | '(' :: r3 =>
      match r3.dropWhile Char.isWhitespace with
      | '(' :: r5 =>
        let inner := r5.takeWhile (fun c => !(c == ')'))
        match r5.dropWhile (fun c => !(c == ')')) with
        | ')' :: r6 =>
          if inner.isEmpty then none
          else
            match r6.dropWhile Char.isWhitespace with
            | [')'] => some inner
            | _ => none
        | _ => none
      | _ => none
    | _ => none

/-- JavaScript test for a coordinate token t: parseFloat(t) is neither NaN
nor infinite.  parseFloat accepts an optional sign followed by a numeric
prefix (digits, or a dot followed by a digit); an Infinity literal or a
token with no numeric prefix fails the test.  (Float overflow of a huge
finite literal is not modelled.) -/
def jsFiniteNumeric (l : List Char) : Bool :=
  match (match l with
         | '+' :: r => r
         | '-' :: r => r
         | r => r) with
  | [] => false
  | c :: rest =>
    c.isDigit ||
      (c == '.' &&
        (match rest with
         | d :: _ => d.isDigit
         | [] => false))

/-- The errors contributed by one coordinate value (1-based pair and position
indices), mirroring the inner loop of the handler. -/
def coordValueErrors (i j : Nat) (c : List Char) : List VErrDetail :=
  if jsFiniteNumeric c then []
  else
    [⟨"polygon",
      "Invalid coordinate value at pair " ++ natToStr i ++ ", position " ++ natToStr j
        ++ ": " ++ String.mk c,
      "INVALID_COORDINATE_VALUE", String.mk c⟩]

/-- The errors contributed by one coordinate pair (1-based index i): a pair
that does not split into exactly two whitespace-separated values reports
INVALID_COORDINATE_PAIR and skips the value checks; otherwise each of the
two values is checked. -/
def pairErrors (i : Nat) (rawPair : List Char) : List VErrDetail :=
  match splitWsTrimmed (trimChars rawPair) with
  | [cx, cy] => coordValueErrors i 1 cx ++ coordValueErrors i 2 cy
  | coords =>
    [⟨"polygon",
      "Coordinate pair " ++ natToStr i ++ " must have exactly 2 values (x y). Found: "
        ++ natToStr coords.length,
      "INVALID_COORDINATE_PAIR", String.mk (trimChars rawPair)⟩]

/-- The per-pair error pass over all coordinate pairs, indexed from 1 in the
messages. -/
def allPairErrors (i : Nat) : List (List Char) → List VErrDetail
  | [] => []
  | p :: ps => pairErrors i p ++ allPairErrors (i + 1) ps

/-- The coordinate-pair list of a polygon body: split on commas, trim each
pair (coordsStr.split(',').map(pair => pair.trim())). -/
def wktCoordPairs (inner : List Char) : List (List Char) :=
  (splitOnChar ',' inner).map trimChars

/-- The REQUIRED error detail for an empty polygon parameter. -/
def requiredErr (polygon : String) : VErrDetail :=
  ⟨"polygon", "Polygon parameter is required and cannot be empty", "REQUIRED", polygon⟩

/-- The INVALID_WKT_FORMAT error detail for text failing the shell pattern. -/
def formatErr (polygon : String) : VErrDetail :=
  ⟨"polygon",
    "Invalid WKT polygon format. Expected: POLYGON((x1 y1, x2 y2, x3 y3, x1 y1))",
    "INVALID_WKT_FORMAT", polygon⟩

/-- The INSUFFICIENT_COORDINATES error detail for fewer than 4 pairs. -/
def insufficientErr (polygon : String) : VErrDetail :=
  ⟨"polygon",
    "Polygon must have at least 4 coordinate pairs (minimum 3 vertices + closing point)",
    "INSUFFICIENT_COORDINATES", polygon⟩

/-- The UNCLOSED_POLYGON error detail when the first and last pairs differ. -/
def unclosedErr (firstC lastC : List Char) : VErrDetail :=
  ⟨"polygon",
    "Polygon must be closed (first and last coordinate pairs must be identical)",
    "UNCLOSED_POLYGON",
    "First: " ++ String.mk firstC ++ ", Last: " ++ String.mk lastC⟩

/-- ValidationErrorHandler.validateWktPolygon: structural validation of WKT
polygon text with defect-specific error details — required/empty, shell
format, fewer than four coordinate pairs, malformed pairs or non-numeric
values, and (only when everything else passed) an unclosed ring. -/
def validateWktPolygon (polygon : String) : WktValidation :=
  if (trimChars polygon.data).isEmpty then ⟨false, [requiredErr polygon]⟩
  else
    match wktShell (trimChars polygon.data) with
    | none => ⟨false, [formatErr polygon]⟩
    | some inner =>
      if (wktCoordPairs inner).length < 4 then ⟨false, [insufficientErr polygon]⟩
      else
        if (allPairErrors 1 (wktCoordPairs inner)).isEmpty then
          if (wktCoordPairs inner).headD [] ≠ (wktCoordPairs inner).getLastD [] then
            ⟨false, [unclosedErr ((wktCoordPairs inner).headD [])
              ((wktCoordPairs inner).getLastD [])]⟩
          else ⟨true, []⟩
        else ⟨false, allPairErrors 1 (wktCoordPairs inner)⟩

/-! ## Pagination schema (QueryBuildingsPaginatedSchema) and controller
helpers -/

/-- The limit field of the paginated Zod schema:
coerce.number().int().min(1).max(100).default(20).  An absent value defaults
to 20; an out-of-range value is rejected with a validation issue, not
adjusted. -/
def parseLimit : Option Int → Except String Nat
  | none => Except.ok 20
  | some n =>
    if n < 1 then Except.error "Number must be greater than or equal to 1"
    else if 100 < n then Except.error "Number must be less than or equal to 100"
    else Except.ok n.toNat

/-- The offset field of the paginated Zod schema:
coerce.number().int().min(0).default(0). -/
def parseOffset : Option Int → Except String Nat
  | none => Except.ok 0
  | some n =>
    if n < 0 then Except.error "Number must be greater than or equal to 0"
    else Except.ok n.toNat

/-- The claim's reading of the limit rule, written from the spec sentence:
absent means 20, any supplied value is clamped into the range 1..100. -/
def claimedClampLimit : Option Int → Nat
  | none => 20
  | some n => (max 1 (min n 100)).toNat

/-- BuildingsController.sanitizeQueryForLogging: a truthy polygon field is
replaced by the placeholder before the query object reaches a log payload. -/
def sanitizeQueryForLogging (q : BuildingsPaginatedQuery) : BuildingsPaginatedQuery :=
  if strTruthy q.polygon then { q with polygon := some "[WKT_POLYGON]" } else q

/-- The trace event emitted on entry to BuildingsService.findByPolygon: the
query is spread with its polygon overwritten by the placeholder. -/
def findByPolygonTraceEvent (_q : BuildingsPaginatedQuery) : LogEvent :=
  ⟨"findByPolygon()", some "[WKT_POLYGON]"⟩

/-- The trace event emitted on entry to
BuildingsService.countTotalByPolygon, same redaction. -/
def countTotalByPolygonTraceEvent (_q : BuildingsPaginatedQuery) : LogEvent :=
  ⟨"countTotalByPolygon()", some "[WKT_POLYGON]"⟩

/-! ## Sample data used by the concrete witness and counterexample
theorems -/

/-- A visible row with a stored geometry and a name. -/
def sampleRowA : BuildingRow :=
  { id := "1", cadastral_code := "C1", municipality_code := "M1",
    name := some "Alpha House", building_type := "residential", address := "Main St 1",
    geom := some ⟨1, 1⟩, visible := true, created_at := 10 }

/-- A visible row with a NULL geometry and a NULL name. -/
def sampleRowB : BuildingRow :=
  { id := "2", cadastral_code := "C2", municipality_code := "M1",
    name := none, building_type := "commercial", address := "Side St 2",
    geom := none, visible := true, created_at := 20 }

/-- A hidden (visible = false) row. -/
def sampleRowH : BuildingRow :=
  { id := "3", cadastral_code := "C3", municipality_code := "M1",
    name := some "Hidden", building_type := "residential", address := "Ghost Rd",
    geom := some ⟨0, 0⟩, visible := false, created_at := 30 }

/-- A small table with two visible rows and one hidden row. -/
def sampleDb : List BuildingRow := [sampleRowA, sampleRowB, sampleRowH]

/-- The spec's example of a malformed polygon: three points, unclosed. -/
def badPolygonText : String := "POLYGON((0 0, 1 1))"

/-- A well-formed closed polygon. -/
def goodPolygonText : String := "POLYGON((0 0, 0 1, 1 1, 0 0))"

deriving instance DecidableEq for Except

/-- The visibility clause both query builders start from. -/
def visibilityClause : String × List SqlParam := ("visible = $1", [SqlParam.pbool true])

/-- The fixed list of defect-naming error codes the handler can emit. -/
def wktDefectCodes : List String :=
  ["REQUIRED", "INVALID_WKT_FORMAT", "INSUFFICIENT_COORDINATES",
   "INVALID_COORDINATE_PAIR", "INVALID_COORDINATE_VALUE", "UNCLOSED_POLYGON"]

/-! ## Supporting lemmas -/

theorem mem_sufs {t s : List Char} : t ∈ sufs s ↔ t <:+ s := by
  induction s with
  | nil => simp [sufs, List.suffix_nil]
  | cons c rest ih =>
    simp only [sufs, List.mem_cons, ih, List.suffix_cons_iff]

theorem likeMatch_percent {p : List Char} {s : List Char} :
    likeMatch ('%' :: p) s = true ↔ ∃ t, t <:+ s ∧ likeMatch p t = true := by
  have h0 : likeMatch ('%' :: p) s = (sufs s).any (fun t => likeMatch p t) := by
    simp [likeMatch]
  rw [h0, List.any_eq_true]
  constructor
  · rintro ⟨t, ht, h⟩
    exact ⟨t, mem_sufs.mp ht, h⟩
  · rintro ⟨t, ht, h⟩
    exact ⟨t, mem_sufs.mpr ht, h⟩

theorem likeMatch_lit_cons {c : Char} {p : List Char} {s : List Char}
    (hpc : c ≠ '%') (hus : c ≠ '_') :
    likeMatch (c :: p) s = true ↔ ∃ s2, s = c :: s2 ∧ likeMatch p s2 = true := by
  cases s with
  | nil => simp [likeMatch, hpc]
  | cons c2 s2 =>
    simp only [likeMatch, if_neg hpc, Bool.or_eq_true, Bool.and_eq_true,
      decide_eq_true_eq, beq_iff_eq]
    constructor
    · rintro ⟨hc | hc, h⟩
      · exact absurd hc hus
      · exact ⟨s2, by rw [hc], h⟩
    · rintro ⟨s3, hs, h⟩
      cases hs
      exact ⟨Or.inr rfl, h⟩

theorem likeMatch_lit_append {v : List Char} {p : List Char} {s : List Char}
    (hv : noWildcards v) :
    likeMatch (v ++ p) s = true ↔ ∃ r, s = v ++ r ∧ likeMatch p r = true := by
  induction v generalizing s with
  | nil => simp
  | cons c v ih =>
    have hc := hv c (by simp)
    have hv' : noWildcards v := fun x hx => hv x (by simp [hx])
    rw [List.cons_append, likeMatch_lit_cons hc.1 hc.2]
    constructor
    · rintro ⟨s2, rfl, h⟩
      obtain ⟨r, rfl, hr⟩ := (ih hv').mp h
      exact ⟨r, rfl, hr⟩
    · rintro ⟨r, rfl, h⟩
      exact ⟨v ++ r, rfl, (ih hv').mpr ⟨r, rfl, h⟩⟩

theorem likeMatch_percent_only {s : List Char} : likeMatch ['%'] s = true := by
  rw [likeMatch_percent]
  exact ⟨[], List.nil_suffix, by simp [likeMatch]⟩

/-- The pattern percent-v-percent (v wildcard-free) matches s exactly when v
occurs as a contiguous sublist of s: the compiled ILIKE fragment implements
substring containment. -/
theorem likeMatch_wrapped_iff_infixOf {v s : List Char} (hv : noWildcards v) :
    likeMatch ('%' :: (v ++ ['%'])) s = true ↔ v <:+: s := by
  rw [likeMatch_percent, List.infix_iff_prefix_suffix]
  constructor
  · rintro ⟨t, hts, h⟩
    obtain ⟨r, rfl, _⟩ := (likeMatch_lit_append hv).mp h
    exact ⟨v ++ r, ⟨r, rfl⟩, hts⟩
  · rintro ⟨t, ⟨r, rfl⟩, hts⟩
    exact ⟨v ++ r, hts, (likeMatch_lit_append hv).mpr ⟨r, rfl, likeMatch_percent_only⟩⟩

theorem applyFilterConditions_eq (b : SqlQueryBuilder) (q : BuildingsPaginatedQuery) :
    applyFilterConditions b q = { b with whereClauses := b.whereClauses ++ filterClauses q } := by
  simp only [applyFilterConditions, filterClauses, SqlQueryBuilder.andWhere]
  split <;> split <;> split <;> split <;> split <;> split <;> simp


theorem countQueryBuilder_eq (q : BuildingsPaginatedQuery) :
    countQueryBuilder q =
      { selectCols := ["COUNT(*) as total"], fromTbl := "public.buildings",
        whereClauses := visibilityClause :: filterClauses q } := by
  simp [countQueryBuilder, applyFilterConditions_eq, SqlQueryBuilder.create,
    SqlQueryBuilder.select, SqlQueryBuilder.fromTable, SqlQueryBuilder.whereCl,
    visibilityClause]

theorem dataQueryBuilder_eq (q : BuildingsPaginatedQuery) :
    dataQueryBuilder q =
      { selectCols := dataSelectCols, fromTbl := "public.buildings",
        whereClauses := visibilityClause :: filterClauses q,
        orderByCl := some ("created_at", "DESC"),
        limitCl := some q.limit, offsetCl := some q.offset } := by
  simp [dataQueryBuilder, applyFilterConditions_eq, SqlQueryBuilder.create,
    SqlQueryBuilder.select, SqlQueryBuilder.fromTable, SqlQueryBuilder.whereCl,
    SqlQueryBuilder.orderBy, SqlQueryBuilder.limit, SqlQueryBuilder.offset,
    visibilityClause]

theorem length_insertByCreatedDesc (r : BuildingRow) (l : List BuildingRow) :
    (insertByCreatedDesc r l).length = l.length + 1 := by
  induction l with
  | nil => rfl
  | cons x xs ih =>
    simp only [insertByCreatedDesc]
    split
    · simp
    · simp [ih]

theorem length_sortByCreatedDesc (l : List BuildingRow) :
    (sortByCreatedDesc l).length = l.length := by
  induction l with
  | nil => rfl
  | cons x xs ih => simp [sortByCreatedDesc, length_insertByCreatedDesc, ih]

theorem mem_insertByCreatedDesc {a r : BuildingRow} {l : List BuildingRow} :
    a ∈ insertByCreatedDesc r l ↔ a = r ∨ a ∈ l := by
  induction l with
  | nil => simp [insertByCreatedDesc]
  | cons x xs ih =>
    simp only [insertByCreatedDesc]
    split
    · simp
    · simp [ih]
      tauto

theorem mem_sortByCreatedDesc {a : BuildingRow} {l : List BuildingRow} :
    a ∈ sortByCreatedDesc l ↔ a ∈ l := by
  induction l with
  | nil => simp [sortByCreatedDesc]
  | cons x xs ih => simp [sortByCreatedDesc, mem_insertByCreatedDesc, ih]

theorem runBuilder_countQueryBuilder (itx : GeoPoint → String → Bool)
    (db : List BuildingRow) (q : BuildingsPaginatedQuery) :
    runBuilder itx db (countQueryBuilder q) =
      filterRows itx db (visibilityClause :: filterClauses q) := by
  rw [countQueryBuilder_eq]
  rfl

theorem executeCountQuery_eq (itx : GeoPoint → String → Bool)
    (db : List BuildingRow) (q : BuildingsPaginatedQuery) :
    executeCountQuery itx db q =
      (filterRows itx db (visibilityClause :: filterClauses q)).length := by
  rw [executeCountQuery, runBuilder_countQueryBuilder]

theorem runBuilder_dataQueryBuilder (itx : GeoPoint → String → Bool)
    (db : List BuildingRow) (q : BuildingsPaginatedQuery) :
    runBuilder itx db (dataQueryBuilder q) =
      ((sortByCreatedDesc
        (filterRows itx db (visibilityClause :: filterClauses q))).drop q.offset).take
        q.limit := by
  rw [dataQueryBuilder_eq]
  rfl

theorem length_runBuilder_data (itx : GeoPoint → String → Bool)
    (db : List BuildingRow) (q : BuildingsPaginatedQuery) :
    (runBuilder itx db (dataQueryBuilder q)).length =
      min q.limit (executeCountQuery itx db q - q.offset) := by
  rw [runBuilder_dataQueryBuilder, executeCountQuery_eq, List.length_take,
    List.length_drop, length_sortByCreatedDesc]

theorem mem_of_mem_runBuilder_data {itx : GeoPoint → String → Bool}
    {db : List BuildingRow} {q : BuildingsPaginatedQuery} {r : BuildingRow}
    (h : r ∈ runBuilder itx db (dataQueryBuilder q)) :
    r ∈ filterRows itx db (visibilityClause :: filterClauses q) := by
  rw [runBuilder_dataQueryBuilder] at h
  exact mem_sortByCreatedDesc.mp (List.mem_of_mem_drop (List.mem_of_mem_take h))

theorem mem_filterRows {itx : GeoPoint → String → Bool} {db : List BuildingRow}
    {clauses : List (String × List SqlParam)} {r : BuildingRow} :
    r ∈ filterRows itx db clauses ↔ r ∈ db ∧ rowMatches itx r clauses = true := by
  simp [filterRows, List.mem_filter]

theorem findAllPaginated_ok_iff {itx : GeoPoint → String → Bool}
    {pgValid : String → Bool} {db : List BuildingRow} {q : BuildingsPaginatedQuery}
    {resp : BuildingsPaginatedResponse} :
    findAllPaginated itx pgValid db q = Except.ok resp ↔
      ((strTruthy q.polygon = false ∨ pgValid (q.polygon.getD "") = true) ∧
        resp = ⟨executePaginatedDataQuery itx db q,
          calculatePaginationMeta (executeCountQuery itx db q) q.limit q.offset⟩) := by
  unfold findAllPaginated findAllPaginatedRun
  cases hp : strTruthy q.polygon
  · simp only [hp, Bool.false_eq_true, if_false, Except.ok.injEq]
    constructor
    · intro h
      exact ⟨Or.inl trivial, h.symm⟩
    · rintro ⟨-, rfl⟩
      rfl
  · cases hv : pgValid (q.polygon.getD "")
    · simp only [hp, hv, Bool.false_eq_true, if_true, if_false, reduceCtorEq]
      constructor
      · intro h
        cases h
      · rintro ⟨hc | hc, -⟩
        · exact hc.elim
        · exact hc.elim
    · simp only [hp, hv, if_true, Except.ok.injEq]
      constructor
      · intro h
        exact ⟨Or.inr trivial, h.symm⟩
      · rintro ⟨-, rfl⟩
        rfl

theorem rowMatches_cons {itx : GeoPoint → String → Bool} {r : BuildingRow}
    {c : String × List SqlParam} {cs : List (String × List SqlParam)} :
    rowMatches itx r (c :: cs) = (evalClause itx r c && rowMatches itx r cs) := by
  simp [rowMatches]

theorem rowMatches_iff_forall {itx : GeoPoint → String → Bool} {r : BuildingRow}
    {cs : List (String × List SqlParam)} :
    rowMatches itx r cs = true ↔ ∀ c ∈ cs, evalClause itx r c = true := by
  simp [rowMatches, List.all_eq_true]

theorem cadastral_clause_mem {q : BuildingsPaginatedQuery}
    (h : strTruthy q.cadastral_code = true) :
    ("cadastral_code = $1", [SqlParam.pstr (q.cadastral_code.getD "")]) ∈ filterClauses q := by
  simp [filterClauses, h]

theorem municipality_clause_mem {q : BuildingsPaginatedQuery}
    (h : strTruthy q.municipality_code = true) :
    ("municipality_code = $1", [SqlParam.pstr (q.municipality_code.getD "")]) ∈
      filterClauses q := by
  simp [filterClauses, h]

theorem building_type_clause_mem {q : BuildingsPaginatedQuery}
    (h : strTruthy q.building_type = true) :
    ("building_type = $1", [SqlParam.pstr (q.building_type.getD "")]) ∈ filterClauses q := by
  simp [filterClauses, h]

theorem name_clause_mem {q : BuildingsPaginatedQuery}
    (h : strTruthy q.name = true) :
    ("name ILIKE $1", [SqlParam.pstr ("%" ++ q.name.getD "" ++ "%")]) ∈ filterClauses q := by
  simp [filterClauses, h]

theorem address_clause_mem {q : BuildingsPaginatedQuery}
    (h : strTruthy q.address = true) :
    ("address ILIKE $1", [SqlParam.pstr ("%" ++ q.address.getD "" ++ "%")]) ∈
      filterClauses q := by
  simp [filterClauses, h]

theorem polygon_clause_mem {q : BuildingsPaginatedQuery}
    (h : strTruthy q.polygon = true) :
    ("ST_Intersects(geom, ST_GeomFromText($1, 4326))",
      [SqlParam.pstr (q.polygon.getD "")]) ∈ filterClauses q := by
  simp [filterClauses, h]

theorem mapRow_inj {a b : BuildingRow} (h : mapRow a = mapRow b) : a = b := by
  cases a
  cases b
  simp only [mapRow, BuildingData.mk.injEq] at h
  simp only [BuildingRow.mk.injEq]
  exact h

/-! ## Claim theorems -/

/-- C1: for every filter request with normalized limit and offset, and for
the total produced by the count query, the returned page's metadata
satisfies hasNext = (offset + limit < total) and hasPrevious = (offset > 0);
both are computed from the count-query total (the metadata is a function of
total, limit and offset only), never from the number of returned records. -/
theorem c1_pagination_meta_from_total :
    (∀ total limit offset : Nat,
      (calculatePaginationMeta total limit offset).hasNext =
        decide (offset + limit < total) ∧
      (calculatePaginationMeta total limit offset).hasPrevious = decide (0 < offset)) ∧
    (∀ (limitOpt offsetOpt : Option Nat) (totalCount : Nat),
      (controllerCalculatePaginationMeta limitOpt offsetOpt totalCount).hasNext =
        decide (offsetOpt.getD 0 + limitOpt.getD 20 < totalCount) ∧
      (controllerCalculatePaginationMeta limitOpt offsetOpt totalCount).hasPrevious =
        decide (0 < offsetOpt.getD 0)) ∧
    (∀ (itx : GeoPoint → String → Bool) (pgValid : String → Bool)
      (db : List BuildingRow) (q : BuildingsPaginatedQuery)
      (resp : BuildingsPaginatedResponse),
      findAllPaginated itx pgValid db q = Except.ok resp →
      resp.meta = calculatePaginationMeta (executeCountQuery itx db q) q.limit q.offset ∧
      (resp.meta.hasNext = true ↔ q.offset + q.limit < executeCountQuery itx db q) ∧
      (resp.meta.hasPrevious = true ↔ 0 < q.offset)) := by
  refine ⟨fun total limit offset => ⟨rfl, rfl⟩,
    fun limitOpt offsetOpt totalCount => ⟨rfl, rfl⟩, ?_⟩
  intro itx pgValid db q resp h
  obtain ⟨-, rfl⟩ := findAllPaginated_ok_iff.mp h
  refine ⟨rfl, ?_, ?_⟩ <;> simp [calculatePaginationMeta]

/-- Witness for C1: a concrete empty-table request whose metadata is exactly
the calculatePaginationMeta value of the count-query total. -/
theorem c1_pagination_meta_from_total_witness :
    (⟨[], ⟨0, 20, 0, false, false⟩⟩ : BuildingsPaginatedResponse).meta =
      calculatePaginationMeta
        (executeCountQuery (fun _ _ => true) [] {}) ({} : BuildingsPaginatedQuery).limit
        ({} : BuildingsPaginatedQuery).offset :=
  (c1_pagination_meta_from_total.2.2 (fun _ _ => true) (fun _ => true) [] {}
    ⟨[], ⟨0, 20, 0, false, false⟩⟩ (by decide)).1

/-- C2: for every filter request the count query and the data query are
built from the identical clause list (the same visibility predicate, text
filters and spatial filter, with the same parameter values) over the same
table; they differ only in select columns, ordering, limit and offset. -/
theorem c2_count_data_share_fragments (q : BuildingsPaginatedQuery) :
    (countQueryBuilder q).whereClauses = (dataQueryBuilder q).whereClauses ∧
    (countQueryBuilder q).fromTbl = (dataQueryBuilder q).fromTbl ∧
    countQueryBuilder q =
      { selectCols := ["COUNT(*) as total"], fromTbl := "public.buildings",
        whereClauses := visibilityClause :: filterClauses q } ∧
    dataQueryBuilder q =
      { selectCols := dataSelectCols, fromTbl := "public.buildings",
        whereClauses := visibilityClause :: filterClauses q,
        orderByCl := some ("created_at", "DESC"),
        limitCl := some q.limit, offsetCl := some q.offset } := by
  refine ⟨?_, ?_, countQueryBuilder_eq q, dataQueryBuilder_eq q⟩ <;>
    rw [countQueryBuilder_eq, dataQueryBuilder_eq]

/-- C3: both compiled queries carry the visibility predicate visible = true
as their first clause (caller-supplied fields only ever append further
clauses), and consequently every record the engine returns has
visible = true. -/
theorem c3_visibility_enforced (q : BuildingsPaginatedQuery) :
    (countQueryBuilder q).whereClauses.head? = some visibilityClause ∧
    (dataQueryBuilder q).whereClauses.head? = some visibilityClause ∧
    (∀ (itx : GeoPoint → String → Bool) (pgValid : String → Bool)
      (db : List BuildingRow) (resp : BuildingsPaginatedResponse) (d : BuildingData),
      findAllPaginated itx pgValid db q = Except.ok resp → d ∈ resp.data →
      d.visible = true) := by
  refine ⟨by rw [countQueryBuilder_eq]; rfl, by rw [dataQueryBuilder_eq]; rfl, ?_⟩
  intro itx pgValid db resp d hok hd
  obtain ⟨-, rfl⟩ := findAllPaginated_ok_iff.mp hok
  obtain ⟨r, hr, rfl⟩ := List.mem_map.mp hd
  have hmem := mem_of_mem_runBuilder_data hr
  have hmatch := (mem_filterRows.mp hmem).2
  have hvis := rowMatches_iff_forall.mp hmatch visibilityClause (by simp)
  have : r.visible = true := by
    simpa [evalClause, visibilityClause] using hvis
  simpa [mapRow] using this

/-- Witness for C3: a concrete record returned from the sample table is
visible. -/
theorem c3_visibility_enforced_witness :
    (mapRow sampleRowA).visible = true :=
  (c3_visibility_enforced {}).2.2 (fun _ _ => true) (fun _ => true) sampleDb
    ⟨[mapRow sampleRowB, mapRow sampleRowA], ⟨2, 20, 0, false, false⟩⟩
    (mapRow sampleRowA) (by decide) (by decide)

/-- C5: for every request with a valid-or-absent polygon against a fixed
table, the engine returns a page (not an error) whose record count is
min(limit, total - offset) with total the count-query result (Nat
subtraction supplying the max(0, total - offset) truncation); in particular
offset at or beyond total yields an empty record list. -/
theorem c5_page_length (itx : GeoPoint → String → Bool) (pgValid : String → Bool)
    (db : List BuildingRow) (q : BuildingsPaginatedQuery)
    (hpoly : strTruthy q.polygon = false ∨ pgValid (q.polygon.getD "") = true) :
    ∃ resp, findAllPaginated itx pgValid db q = Except.ok resp ∧
      resp.meta.total = executeCountQuery itx db q ∧
      resp.data.length = min q.limit (resp.meta.total - q.offset) ∧
      (resp.meta.total ≤ q.offset → resp.data = []) := by
  refine ⟨⟨executePaginatedDataQuery itx db q,
    calculatePaginationMeta (executeCountQuery itx db q) q.limit q.offset⟩,
    findAllPaginated_ok_iff.mpr ⟨hpoly, rfl⟩, rfl, ?_, ?_⟩
  · show (executePaginatedDataQuery itx db q).length = _
    rw [executePaginatedDataQuery, List.length_map, length_runBuilder_data]
    rfl
  · intro hle
    show executePaginatedDataQuery itx db q = []
    have h0 : (executePaginatedDataQuery itx db q).length = 0 := by
      rw [executePaginatedDataQuery, List.length_map, length_runBuilder_data]
      have : executeCountQuery itx db q - q.offset = 0 := Nat.sub_eq_zero_of_le hle
      simp [this]
    exact List.eq_nil_of_length_eq_zero h0

/-- Witness for C5: limit 2, offset 5 against a table whose visible
population is 2 — a valid empty page. -/
theorem c5_page_length_witness :
    ∃ resp, findAllPaginated (fun _ _ => true) (fun _ => true) sampleDb
        { limit := 2, offset := 5 } = Except.ok resp ∧
      resp.meta.total =
        executeCountQuery (fun _ _ => true) sampleDb { limit := 2, offset := 5 } ∧
      resp.data.length = min 2 (resp.meta.total - 5) ∧
      (resp.meta.total ≤ 5 → resp.data = []) :=
  c5_page_length (fun _ _ => true) (fun _ => true) sampleDb { limit := 2, offset := 5 }
    (Or.inl (by decide))

theorem wrapped_pattern_data (v : String) :
    ("%" ++ v ++ "%").data.map Char.toLower =
      '%' :: (v.data.map Char.toLower ++ ['%']) := by
  have hpct : Char.toLower '%' = '%' := by decide
  have h1 : ("%" ++ v ++ "%").data = '%' :: (v.data ++ ['%']) := by
    rw [String.data_append, String.data_append]
    rfl
  rw [h1]
  simp [hpct]

theorem ilike_wrapped_iff {n v : String} (hv : noWildcards (v.data.map Char.toLower)) :
    ilike n ("%" ++ v ++ "%") = true ↔
      (v.data.map Char.toLower) <:+: (n.data.map Char.toLower) := by
  rw [ilike, wrapped_pattern_data]
  exact likeMatch_wrapped_iff_infixOf hv

/-- C4: the compiled predicates follow the per-field matching policy —
exact equality for cadastral code, municipality code and building type;
case-insensitive substring containment (the value wrapped in wildcard
markers on both sides) for name and address; and all supplied filters are
AND-combined, so every returned record satisfies them simultaneously. -/
theorem c4_matching_policy (itx : GeoPoint → String → Bool) (pgValid : String → Bool)
    (db : List BuildingRow) (q : BuildingsPaginatedQuery)
    (resp : BuildingsPaginatedResponse) (d : BuildingData)
    (hok : findAllPaginated itx pgValid db q = Except.ok resp)
    (hd : d ∈ resp.data) :
    (strTruthy q.name = true →
      ("name ILIKE $1", [SqlParam.pstr ("%" ++ q.name.getD "" ++ "%")]) ∈
        (dataQueryBuilder q).whereClauses) ∧
    (strTruthy q.address = true →
      ("address ILIKE $1", [SqlParam.pstr ("%" ++ q.address.getD "" ++ "%")]) ∈
        (dataQueryBuilder q).whereClauses) ∧
    (∀ v, q.cadastral_code = some v → v ≠ "" → d.cadastral_code = v) ∧
    (∀ v, q.municipality_code = some v → v ≠ "" → d.municipality_code = v) ∧
    (∀ v, q.building_type = some v → v ≠ "" → d.building_type = v) ∧
    (∀ v, q.name = some v → v ≠ "" → noWildcards (v.data.map Char.toLower) →
      ∃ n, d.name = some n ∧
        (v.data.map Char.toLower) <:+: (n.data.map Char.toLower)) ∧
    (∀ v, q.address = some v → v ≠ "" → noWildcards (v.data.map Char.toLower) →
      (v.data.map Char.toLower) <:+: (d.address.data.map Char.toLower)) := by
  obtain ⟨-, rfl⟩ := findAllPaginated_ok_iff.mp hok
  obtain ⟨r, hr, rfl⟩ := List.mem_map.mp hd
  have hall := rowMatches_iff_forall.mp
    (mem_filterRows.mp (mem_of_mem_runBuilder_data hr)).2
  refine ⟨?_, ?_, ?_, ?_, ?_, ?_, ?_⟩
  · intro ht
    rw [dataQueryBuilder_eq]
    exact List.mem_cons_of_mem _ (name_clause_mem ht)
  · intro ht
    rw [dataQueryBuilder_eq]
    exact List.mem_cons_of_mem _ (address_clause_mem ht)
  · intro v hv hne
    have ht : strTruthy q.cadastral_code = true := by simp [strTruthy, hv, hne]
    have hcl := hall _ (List.mem_cons_of_mem _ (cadastral_clause_mem ht))
    rw [hv] at hcl
    simpa [evalClause, mapRow] using hcl
  · intro v hv hne
    have ht : strTruthy q.municipality_code = true := by simp [strTruthy, hv, hne]
    have hcl := hall _ (List.mem_cons_of_mem _ (municipality_clause_mem ht))
    rw [hv] at hcl
    simpa [evalClause, mapRow] using hcl
  · intro v hv hne
    have ht : strTruthy q.building_type = true := by simp [strTruthy, hv, hne]
    have hcl := hall _ (List.mem_cons_of_mem _ (building_type_clause_mem ht))
    rw [hv] at hcl
    simpa [evalClause, mapRow] using hcl
  · intro v hv hne hw
    have ht : strTruthy q.name = true := by simp [strTruthy, hv, hne]
    have hcl := hall _ (List.mem_cons_of_mem _ (name_clause_mem ht))
    rw [hv] at hcl
    simp only [evalClause, Option.getD_some] at hcl
    match hrn : r.name with
    | none => rw [hrn] at hcl; simp [optIlike] at hcl
    | some n =>
      rw [hrn] at hcl
      simp only [optIlike] at hcl
      refine ⟨n, by simp [mapRow, hrn], (ilike_wrapped_iff hw).mp hcl⟩
  · intro v hv hne hw
    have ht : strTruthy q.address = true := by simp [strTruthy, hv, hne]
    have hcl := hall _ (List.mem_cons_of_mem _ (address_clause_mem ht))
    rw [hv] at hcl
    simp only [evalClause, Option.getD_some] at hcl
    have : (mapRow r).address = r.address := rfl
    rw [this]
    exact (ilike_wrapped_iff hw).mp hcl

/-- Witness for C4: a combined name and building-type filter against the
sample table returns the row whose lowercased name contains the filter and
whose type matches exactly. -/
theorem c4_matching_policy_witness :
    (∀ v, ({ name := some "alpha", building_type := some "residential" } :
      BuildingsPaginatedQuery).building_type = some v → v ≠ "" →
      (mapRow sampleRowA).building_type = v) ∧
    (∀ v, ({ name := some "alpha", building_type := some "residential" } :
      BuildingsPaginatedQuery).name = some v → v ≠ "" →
      noWildcards (v.data.map Char.toLower) →
      ∃ n, (mapRow sampleRowA).name = some n ∧
        (v.data.map Char.toLower) <:+: (n.data.map Char.toLower)) := by
  have h := c4_matching_policy (fun _ _ => true) (fun _ => true) sampleDb
    { name := some "alpha", building_type := some "residential" }
    ⟨[mapRow sampleRowA], ⟨1, 20, 0, false, false⟩⟩ (mapRow sampleRowA)
    (by decide) (by decide)
  exact ⟨h.2.2.2.2.1, h.2.2.2.2.2.1⟩

theorem coordValueErrors_codes {i j : Nat} {c : List Char} {e : VErrDetail}
    (h : e ∈ coordValueErrors i j c) : e.code = "INVALID_COORDINATE_VALUE" := by
  unfold coordValueErrors at h
  split at h
  · simp at h
  · rw [List.mem_singleton] at h
    rw [h]

theorem pairErrors_codes {i : Nat} {p : List Char} {e : VErrDetail}
    (h : e ∈ pairErrors i p) :
    e.code = "INVALID_COORDINATE_PAIR" ∨ e.code = "INVALID_COORDINATE_VALUE" := by
  unfold pairErrors at h
  split at h
  · rcases List.mem_append.mp h with h2 | h2 <;>
      exact Or.inr (coordValueErrors_codes h2)
  · rw [List.mem_singleton] at h
    rw [h]
    exact Or.inl rfl

theorem allPairErrors_codes {i : Nat} {ps : List (List Char)} {e : VErrDetail}
    (h : e ∈ allPairErrors i ps) :
    e.code = "INVALID_COORDINATE_PAIR" ∨ e.code = "INVALID_COORDINATE_VALUE" := by
  induction ps generalizing i with
  | nil => simp [allPairErrors] at h
  | cons p ps ih =>
    rcases List.mem_append.mp h with h2 | h2
    · exact pairErrors_codes h2
    · exact ih h2


theorem validateWktPolygon_result (s : String) :
    validateWktPolygon s = ⟨true, []⟩ ∨
      ((validateWktPolygon s).isValid = false ∧ (validateWktPolygon s).errors ≠ [] ∧
        ∀ e ∈ (validateWktPolygon s).errors, e.code ∈ wktDefectCodes) := by
  unfold validateWktPolygon
  split
  · right
    exact ⟨rfl, by simp, by simp [requiredErr, wktDefectCodes]⟩
  · split
    · right
      exact ⟨rfl, by simp, by simp [formatErr, wktDefectCodes]⟩
    · split
      · right
        exact ⟨rfl, by simp, by simp [insufficientErr, wktDefectCodes]⟩
      · split
        · split
          · right
            exact ⟨rfl, by simp, by simp [unclosedErr, wktDefectCodes]⟩
          · left
            rfl
        · rename_i hemp
          right
          refine ⟨rfl, ?_, ?_⟩
          · intro hnil
            exact hemp (by simp [show allPairErrors 1 _ = [] from hnil])
          · intro e he
            rcases allPairErrors_codes he with hc | hc <;> simp [hc, wktDefectCodes]

/-- C6 counterexample: for the spec's example polygon (3 points, unclosed),
the paginated engine path rejects the input through its PostGIS-based
validation with the one generic message, which mentions neither coordinate
pairs nor closure — the claim's defect-naming guarantee fails on this
engine path (the store's verdict on this malformed text is negative, and the
service maps a database error to the same generic message anyway). -/
theorem c6_counterexample :
    findAllPaginated (fun _ _ => false) (fun _ => false) []
      { polygon := some badPolygonText } = Except.error genericWktMessage ∧
    strContains genericWktMessage "coordinate pairs" = false ∧
    strContains genericWktMessage "closed" = false ∧
    (findAllPaginatedRun (fun _ _ => false) (fun _ => false) []
      { polygon := some badPolygonText }).phases = [DbPhase.validationQ] := by
  decide

/-- C6 (amended): the controller-level WKT validator
(ValidationErrorHandler.validateWktPolygon) rejects every malformed polygon
with defect-naming error details only — in particular, fewer than four
coordinate pairs yields exactly the insufficient-coordinates error (message
mentioning coordinate pairs) and an unclosed ring yields exactly the
unclosed-polygon error (message mentioning closure) — and it runs no store
query at all (it is a pure function); the paginated service path also issues
no count or data query for a polygon the store rejects, but signals the
generic message instead of a defect-specific one. -/
theorem c6_amended :
    (∀ s : String, (validateWktPolygon s).isValid = false →
      (validateWktPolygon s).errors ≠ [] ∧
        ∀ e ∈ (validateWktPolygon s).errors, e.code ∈ wktDefectCodes) ∧
    (∀ (s : String) (inner : List Char), wktShell (trimChars s.data) = some inner →
      (trimChars s.data).isEmpty = false →
      (wktCoordPairs inner).length < 4 →
      validateWktPolygon s = ⟨false, [insufficientErr s]⟩ ∧
        strContains (insufficientErr s).message "coordinate pairs" = true) ∧
    (∀ (s : String) (inner : List Char), wktShell (trimChars s.data) = some inner →
      (trimChars s.data).isEmpty = false →
      ¬(wktCoordPairs inner).length < 4 →
      allPairErrors 1 (wktCoordPairs inner) = [] →
      (wktCoordPairs inner).headD [] ≠ (wktCoordPairs inner).getLastD [] →
      validateWktPolygon s =
        ⟨false, [unclosedErr ((wktCoordPairs inner).headD [])
          ((wktCoordPairs inner).getLastD [])]⟩ ∧
        strContains (unclosedErr ((wktCoordPairs inner).headD [])
          ((wktCoordPairs inner).getLastD [])).message "closed" = true) ∧
    (∀ (itx : GeoPoint → String → Bool) (pgValid : String → Bool)
      (db : List BuildingRow) (q : BuildingsPaginatedQuery),
      strTruthy q.polygon = true → pgValid (q.polygon.getD "") = false →
      (findAllPaginatedRun itx pgValid db q).result = Except.error genericWktMessage ∧
        (findAllPaginatedRun itx pgValid db q).phases = [DbPhase.validationQ]) := by
  refine ⟨?_, ?_, ?_, ?_⟩
  · intro s h
    rcases validateWktPolygon_result s with heq | hspec
    · rw [heq] at h
      cases h
    · exact ⟨hspec.2.1, hspec.2.2⟩
  · intro s inner hshell hne hlt
    constructor
    · unfold validateWktPolygon
      rw [hshell]
      simp [hne, hlt]
    · show strContains
        "Polygon must have at least 4 coordinate pairs (minimum 3 vertices + closing point)"
        "coordinate pairs" = true
      decide
  · intro s inner hshell hne hlt hpe hcl
    constructor
    · unfold validateWktPolygon
      rw [hshell]
      simp only [hne, Bool.false_eq_true, if_false, hlt, hpe, List.isEmpty_nil, if_true]
      rw [if_pos hcl]
    · show strContains
        "Polygon must be closed (first and last coordinate pairs must be identical)"
        "closed" = true
      decide
  · intro itx pgValid db q h1 h2
    constructor <;> simp [findAllPaginatedRun, h1, h2]

/-- Witness for C6 (amended): the spec's example polygon gets the
insufficient-coordinates detail from the handler, and the paginated service
path stops after the validation query with the generic message. -/
theorem c6_amended_witness :
    ((validateWktPolygon badPolygonText).errors ≠ [] ∧
      ∀ e ∈ (validateWktPolygon badPolygonText).errors, e.code ∈ wktDefectCodes) ∧
    (validateWktPolygon badPolygonText = ⟨false, [insufficientErr badPolygonText]⟩ ∧
      strContains (insufficientErr badPolygonText).message "coordinate pairs" = true) ∧
    (validateWktPolygon "POLYGON((0 0, 0 1, 1 1, 2 2))" =
      ⟨false, [unclosedErr "0 0".data "2 2".data]⟩ ∧
      strContains (unclosedErr "0 0".data "2 2".data).message "closed" = true) ∧
    ((findAllPaginatedRun (fun _ _ => false) (fun _ => false) []
        { polygon := some badPolygonText }).result = Except.error genericWktMessage ∧
      (findAllPaginatedRun (fun _ _ => false) (fun _ => false) []
        { polygon := some badPolygonText }).phases = [DbPhase.validationQ]) := by
  refine ⟨c6_amended.1 badPolygonText (by decide),
    c6_amended.2.1 badPolygonText "0 0, 1 1".data (by decide) (by decide) (by decide),
    ?_,
    c6_amended.2.2.2 (fun _ _ => false) (fun _ => false) []
      { polygon := some badPolygonText } (by decide) rfl⟩
  have h := c6_amended.2.2.1 "POLYGON((0 0, 0 1, 1 1, 2 2))"
    "0 0, 0 1, 1 1, 2 2".data (by decide) (by decide) (by decide) (by decide) (by decide)
  have hh : wktCoordPairs "0 0, 0 1, 1 1, 2 2".data =
      ["0 0".data, "0 1".data, "1 1".data, "2 2".data] := by decide
  rw [hh] at h
  exact h

/-- C7 counterexample: limit 200 is not clamped into the range — the schema
rejects it with a validation issue, while clamping as claimed would have
produced 100. -/
theorem c7_counterexample :
    parseLimit (some 200) = Except.error "Number must be less than or equal to 100" ∧
    claimedClampLimit (some 200) = 100 ∧
    parseLimit (some 200) ≠ Except.ok (claimedClampLimit (some 200)) := by
  decide

/-- C7 (amended): limit defaults to 20 and offset to 0 when absent, and
out-of-range values are rejected with a validation error rather than
clamped; whenever parsing succeeds the limit lies in 1..100 and the offset
is the supplied non-negative value, and the engine's data query uses exactly
the normalized limit and offset. -/
theorem c7_amended :
    parseLimit none = Except.ok 20 ∧
    parseOffset none = Except.ok 0 ∧
    (∀ (n : Int) (l : Nat), parseLimit (some n) = Except.ok l →
      1 ≤ l ∧ l ≤ 100 ∧ (l : Int) = n) ∧
    (∀ n : Int, n < 1 → ∃ e, parseLimit (some n) = Except.error e) ∧
    (∀ n : Int, 100 < n → ∃ e, parseLimit (some n) = Except.error e) ∧
    (∀ (n : Int) (o : Nat), parseOffset (some n) = Except.ok o → 0 ≤ n ∧ (o : Int) = n) ∧
    (∀ n : Int, n < 0 → ∃ e, parseOffset (some n) = Except.error e) ∧
    (∀ q : BuildingsPaginatedQuery, (dataQueryBuilder q).limitCl = some q.limit ∧
      (dataQueryBuilder q).offsetCl = some q.offset) := by
  refine ⟨rfl, rfl, ?_, ?_, ?_, ?_, ?_, ?_⟩
  · intro n l h
    simp only [parseLimit] at h
    split at h
    · cases h
    · split at h
      · cases h
      · rename_i h1 h2
        injection h with h
        subst h
        refine ⟨?_, ?_, ?_⟩ <;> omega
  · intro n h
    exact ⟨_, by simp only [parseLimit]; rw [if_pos h]⟩
  · intro n h
    exact ⟨_, by simp only [parseLimit]; rw [if_neg (by omega), if_pos h]⟩
  · intro n o h
    simp only [parseOffset] at h
    split at h
    · cases h
    · rename_i h1
      injection h with h
      subst h
      constructor <;> omega
  · intro n h
    exact ⟨_, by simp only [parseOffset]; rw [if_pos h]⟩
  · intro q
    rw [dataQueryBuilder_eq]
    exact ⟨rfl, rfl⟩

/-- Witness for C7 (amended): 50 parses to an in-range limit, 200 and 0 are
rejected for limit, minus one is rejected for offset. -/
theorem c7_amended_witness :
    (1 ≤ 50 ∧ 50 ≤ 100 ∧ ((50 : Nat) : Int) = 50) ∧
    (∃ e, parseLimit (some 0) = Except.error e) ∧
    (∃ e, parseLimit (some 200) = Except.error e) ∧
    (∃ e, parseOffset (some (-1)) = Except.error e) :=
  ⟨c7_amended.2.2.1 50 50 (by decide),
   c7_amended.2.2.2.1 0 (by decide),
   c7_amended.2.2.2.2.1 200 (by decide),
   c7_amended.2.2.2.2.2.2.1 (-1) (by decide)⟩

/-- C8 counterexample: an exact-match field supplied as the empty string
contributes no predicate at all — the compiled clause list is the one of the
wholly-unfiltered request, and no exact-empty-string equality clause is
present. -/
theorem c8_counterexample :
    countQueryBuilder { cadastral_code := some "" } = countQueryBuilder {} ∧
    ("cadastral_code = $1", [SqlParam.pstr ""]) ∉
      (countQueryBuilder { cadastral_code := some "" }).whereClauses := by
  decide

/-- C8 (amended): an exact-match field supplied as the empty string is
treated exactly like an absent field — the truthiness guard skips it, so
both compiled queries coincide with those of the request with the field
removed (empty string and omission are conflated, not distinguished). -/
theorem c8_amended (q : BuildingsPaginatedQuery) :
    (q.cadastral_code = some "" →
      countQueryBuilder q = countQueryBuilder { q with cadastral_code := none } ∧
      dataQueryBuilder q = dataQueryBuilder { q with cadastral_code := none }) ∧
    (q.municipality_code = some "" →
      countQueryBuilder q = countQueryBuilder { q with municipality_code := none } ∧
      dataQueryBuilder q = dataQueryBuilder { q with municipality_code := none }) ∧
    (q.building_type = some "" →
      countQueryBuilder q = countQueryBuilder { q with building_type := none } ∧
      dataQueryBuilder q = dataQueryBuilder { q with building_type := none }) := by
  refine ⟨?_, ?_, ?_⟩ <;> intro hc
  · have hfc : filterClauses q = filterClauses { q with cadastral_code := none } := by
      simp [filterClauses, hc, strTruthy]
    rw [countQueryBuilder_eq, countQueryBuilder_eq, dataQueryBuilder_eq,
      dataQueryBuilder_eq, hfc]
    exact ⟨rfl, rfl⟩
  · have hfc : filterClauses q = filterClauses { q with municipality_code := none } := by
      simp [filterClauses, hc, strTruthy]
    rw [countQueryBuilder_eq, countQueryBuilder_eq, dataQueryBuilder_eq,
      dataQueryBuilder_eq, hfc]
    exact ⟨rfl, rfl⟩
  · have hfc : filterClauses q = filterClauses { q with building_type := none } := by
      simp [filterClauses, hc, strTruthy]
    rw [countQueryBuilder_eq, countQueryBuilder_eq, dataQueryBuilder_eq,
      dataQueryBuilder_eq, hfc]
    exact ⟨rfl, rfl⟩

/-- Witness for C8 (amended): the empty-string cadastral filter compiles to
the same queries as the filterless request. -/
theorem c8_amended_witness :
    countQueryBuilder { cadastral_code := some "" } =
      countQueryBuilder
        { ({ cadastral_code := some "" } : BuildingsPaginatedQuery) with
          cadastral_code := none } ∧
    dataQueryBuilder { cadastral_code := some "" } =
      dataQueryBuilder
        { ({ cadastral_code := some "" } : BuildingsPaginatedQuery) with
          cadastral_code := none } :=
  (c8_amended { cadastral_code := some "" }).1 rfl

/-- C9 counterexample: the paginated engine's own entry trace event carries
the raw polygon text verbatim (not the placeholder) in its payload. -/
theorem c9_counterexample :
    (⟨"findAllPaginated()", some goodPolygonText⟩ : LogEvent) ∈
      (findAllPaginatedRun (fun _ _ => true) (fun _ => true) []
        { polygon := some goodPolygonText }).logs ∧
    goodPolygonText ≠ "[WKT_POLYGON]" := by
  decide

/-- C9 (amended): the polygon-path services (findByPolygon,
countTotalByPolygon) and the aggregating controller redact the polygon to
the placeholder in their log payloads, but the paginated service's entry
trace event logs the raw polygon text verbatim. -/
theorem c9_amended :
    (∀ q : BuildingsPaginatedQuery, strTruthy q.polygon = true →
      (sanitizeQueryForLogging q).polygon = some "[WKT_POLYGON]") ∧
    (∀ q : BuildingsPaginatedQuery,
      (findByPolygonTraceEvent q).payloadPolygon = some "[WKT_POLYGON]" ∧
      (countTotalByPolygonTraceEvent q).payloadPolygon = some "[WKT_POLYGON]") ∧
    (∀ (itx : GeoPoint → String → Bool) (pgValid : String → Bool)
      (db : List BuildingRow) (q : BuildingsPaginatedQuery) (p : String),
      q.polygon = some p →
      (findAllPaginatedRun itx pgValid db q).logs.head? =
        some ⟨"findAllPaginated()", some p⟩) := by
  refine ⟨?_, fun q => ⟨rfl, rfl⟩, ?_⟩
  · intro q h
    simp [sanitizeQueryForLogging, h]
  · intro itx pgValid db q p h
    simp only [findAllPaginatedRun]
    split
    · split
      · simp [h]
      · simp [h]
    · simp [h]

/-- Witness for C9 (amended): redaction on the polygon-path query, raw text
in the paginated trace for a concrete request. -/
theorem c9_amended_witness :
    (sanitizeQueryForLogging { polygon := some goodPolygonText }).polygon =
      some "[WKT_POLYGON]" ∧
    (findAllPaginatedRun (fun _ _ => true) (fun _ => true) []
      { polygon := some goodPolygonText }).logs.head? =
        some ⟨"findAllPaginated()", some goodPolygonText⟩ :=
  ⟨c9_amended.1 { polygon := some goodPolygonText } (by decide),
   c9_amended.2.2 (fun _ _ => true) (fun _ => true) []
     { polygon := some goodPolygonText } goodPolygonText rfl⟩

theorem take_of_length_le' {l : List BuildingRow} {n : Nat} (h : l.length ≤ n) :
    l.take n = l :=
  List.take_of_length_le h

/-- C10: a stored row with NULL geometry is never returned under a polygon
filter (the spatial predicate does not hold for NULL geometry), while the
identical request without the polygon filter does return it (under the page
window), with the output geometry field absent rather than a parse
failure. -/
theorem c10_null_geometry (itx : GeoPoint → String → Bool) (pgValid : String → Bool)
    (db : List BuildingRow) (q : BuildingsPaginatedQuery) (r : BuildingRow)
    (hg : r.geom = none) :
    (strTruthy q.polygon = true →
      r ∉ filterRows itx db (dataQueryBuilder q).whereClauses ∧
      ∀ resp, findAllPaginated itx pgValid db q = Except.ok resp →
        mapRow r ∉ resp.data) ∧
    (mapRow r).geometry = none ∧
    (∀ q2 : BuildingsPaginatedQuery, q2.polygon = none → r ∈ db →
      rowMatches itx r (visibilityClause :: filterClauses q2) = true →
      q2.offset = 0 →
      (filterRows itx db (visibilityClause :: filterClauses q2)).length ≤ q2.limit →
      ∃ resp, findAllPaginated itx pgValid db q2 = Except.ok resp ∧
        mapRow r ∈ resp.data) := by
  have hnotmatch : ∀ qq : BuildingsPaginatedQuery, strTruthy qq.polygon = true →
      rowMatches itx r (visibilityClause :: filterClauses qq) = false := by
    intro qq hp
    have hmem := List.mem_cons_of_mem visibilityClause (polygon_clause_mem (q := qq) hp)
    rcases hM : rowMatches itx r (visibilityClause :: filterClauses qq) with _ | _
    · rfl
    · exfalso
      have := rowMatches_iff_forall.mp hM _ hmem
      rw [show evalClause itx r ("ST_Intersects(geom, ST_GeomFromText($1, 4326))",
        [SqlParam.pstr (qq.polygon.getD "")]) =
          (match r.geom with | none => false | some g => itx g (qq.polygon.getD ""))
        from rfl, hg] at this
      cases this
  refine ⟨?_, by simp [mapRow, hg], ?_⟩
  · intro hp
    have hnot : r ∉ filterRows itx db (visibilityClause :: filterClauses q) := by
      intro hmem
      have := (mem_filterRows.mp hmem).2
      rw [hnotmatch q hp] at this
      cases this
    constructor
    · rw [dataQueryBuilder_eq]
      exact hnot
    · intro resp hok hmem
      obtain ⟨-, rfl⟩ := findAllPaginated_ok_iff.mp hok
      obtain ⟨r2, hr2, heq⟩ := List.mem_map.mp hmem
      have : r2 = r := mapRow_inj heq
      subst this
      exact hnot (mem_of_mem_runBuilder_data hr2)
  · intro q2 hq2 hrdb hmatch hoff hlen
    have hps : strTruthy q2.polygon = false := by rw [hq2]; rfl
    refine ⟨⟨executePaginatedDataQuery itx db q2,
      calculatePaginationMeta (executeCountQuery itx db q2) q2.limit q2.offset⟩,
      findAllPaginated_ok_iff.mpr ⟨Or.inl hps, rfl⟩, ?_⟩
    show mapRow r ∈ (runBuilder itx db (dataQueryBuilder q2)).map mapRow
    rw [runBuilder_dataQueryBuilder, hoff, List.drop_zero, take_of_length_le'
      (by rw [length_sortByCreatedDesc]; exact hlen)]
    exact List.mem_map_of_mem mapRow
      (mem_sortByCreatedDesc.mpr (mem_filterRows.mpr ⟨hrdb, hmatch⟩))

/-- Witness for C10: the NULL-geometry sample row is excluded by a polygon
request but returned (with absent geometry) by the same request without the
polygon. -/
theorem c10_null_geometry_witness :
    (sampleRowB ∉ filterRows (fun _ _ => true) sampleDb
      (dataQueryBuilder { polygon := some goodPolygonText }).whereClauses) ∧
    (mapRow sampleRowB).geometry = none ∧
    (∃ resp, findAllPaginated (fun _ _ => true) (fun _ => true) sampleDb {} =
      Except.ok resp ∧ mapRow sampleRowB ∈ resp.data) := by
  have h := c10_null_geometry (fun _ _ => true) (fun _ => true) sampleDb
    { polygon := some goodPolygonText } sampleRowB rfl
  exact ⟨(h.1 (by decide)).1, h.2.1,
    h.2.2 {} rfl (by decide) (by decide) rfl (by decide)⟩
